import Mathlib

/-!
Verification of the TelegramBot repository (New_Main.py, db_utils.py, utils.py,
test_topic_escaping.py) against its natural-language specification.

Strings are modelled as `List Char`, Python string helpers (`strip`, `replace`,
`split`, substring search as performed by `re.search` on literal-prefix
patterns) as executable Lean functions, and the stateful pieces (token
counters, the users table, scheduler preferences) as explicit state passing.
-/

set_option maxRecDepth 100000

abbrev Str := List Char

/-! Character constants (written via code points to keep quoting simple). -/

def tabChar : Char := Char.ofNat 9

def lfChar : Char := Char.ofNat 10

def vtChar : Char := Char.ofNat 11

def ffChar : Char := Char.ofNat 12

def crChar : Char := Char.ofNat 13

def doubleQuoteChar : Char := Char.ofNat 34

def singleQuoteChar : Char := Char.ofNat 39

def backtickChar : Char := Char.ofNat 96

/-- The ASCII whitespace characters recognised by Python `str.strip()` /
regex `\s` (space, tab, newline, carriage return, vertical tab, form feed). -/
def isPySpace (c : Char) : Bool :=
  c = ' ' || c = tabChar || c = lfChar || c = crChar || c = vtChar || c = ffChar

/-- Python `s.strip()`: remove leading and trailing whitespace. -/
def pyStrip (s : Str) : Str :=
  ((s.dropWhile isPySpace).reverse.dropWhile isPySpace).reverse

/-- Python `s.replace(a, b)` for single-character `a`, `b`. -/
def pyReplaceChar (a b : Char) (s : Str) : Str :=
  s.map (fun c => if c = a then b else c)

/-- Python `s.replace(a, "")` for a single-character `a`: delete every
occurrence of `a`. -/
def pyDeleteChar (a : Char) (s : Str) : Str :=
  s.filter (fun c => c != a)

/-- Split a string at the first occurrence of `pat`: returns
`some (before, after)` where `s = before ++ pat ++ after` and `before` is the
shortest such prefix, or `none` when `pat` does not occur in `s`.
This is the search underlying Python `s.split(pat)[0]`, `s.find(pat)` and
`re.search` on a pattern that begins with the literal `pat`. -/
def splitOnFirst (pat : Str) (s : Str) : Option (Str × Str) :=
  if pat.isPrefixOf s then some ([], s.drop pat.length)
  else
    match s with
    | [] => none
    | c :: rest => (splitOnFirst pat rest).map (fun p => (c :: p.1, p.2))

/-- Python `pat in s` (substring containment). -/
def hasSubstr (pat s : Str) : Bool :=
  (splitOnFirst pat s).isSome

/-- Python `s.split(sep)` for a single-character separator: keeps empty
pieces, and `"".split(sep) = [""]`. -/
def splitChar (sep : Char) : Str → List Str
  | [] => [[]]
  | c :: rest =>
    let r := splitChar sep rest
    if c = sep then [] :: r
    else
      match r with
      | [] => [[c]]
      | h :: t => (c :: h) :: t

/-- ASCII lower-casing, as applied by `re.IGNORECASE` matching of ASCII
literal patterns. -/
def pyLower (s : Str) : Str := s.map Char.toLower

/-- Case-insensitive variant of `splitOnFirst`: finds the first
case-insensitive occurrence of `pat` in `s` and returns the (original-case)
text before it and after it. -/
def splitOnFirstCI (pat s : Str) : Option (Str × Str) :=
  match splitOnFirst (pyLower pat) (pyLower s) with
  | none => none
  | some p => some (s.take p.1.length, s.drop (p.1.length + pat.length))

/-- Python `re.search(pat, s, re.IGNORECASE) is not None` for a literal
pattern `pat`. -/
def hasSubstrCI (pat s : Str) : Bool :=
  (splitOnFirstCI pat s).isSome

/-! ### Journal pipeline: reflective-analysis response parsing
(New_Main.py, handle_journal_logic, lines 771-789) -/

def dotStartMarker : Str := "--- DOT START ---".toList

def dotEndMarker : Str := "--- DOT END ---".toList

def analysisForMarker : Str := "**Analysis for ".toList

def colonStarStar : Str := ":**".toList

/-- Post-processing of `analysis_response_text.split("--- DOT START ---")[0]`
(New_Main.py lines 776-785): when the candidate contains the generic
reflection marker, the text from just after the first `":**"` is kept
(Python `find` returns `-1` when absent, so then `candidate[2:]` is kept);
otherwise the whole candidate; always whitespace-stripped. -/
def analysisFromCandidate (cand : Str) : Str :=
  if hasSubstr analysisForMarker cand then
    match splitOnFirst colonStarStar cand with
    | some p => pyStrip (cand.drop (p.1.length + 3))
    | none => pyStrip (cand.drop 2)
  else pyStrip cand

/-- The reflective-analysis parse of New_Main.py lines 771-789: the regex
`--- DOT START ---([\s\S]*?)--- DOT END ---` (first start marker, then first
end marker after it) yields the stripped diagram description; the user-facing
analysis comes from the text before the first start marker. When the regex
does not match, the whole response is the analysis and there is no diagram.
Returns `(diagram description?, user-facing analysis)`. -/
def journalAnalysisParse (resp : Str) : Option Str × Str :=
  match splitOnFirst dotStartMarker resp with
  | none => (none, resp)
  | some pre_rest =>
    match splitOnFirst dotEndMarker pre_rest.2 with
    | none => (none, resp)
    | some mid_post => (some (pyStrip mid_post.1), analysisFromCandidate pre_rest.1)

/-! ### Journal pipeline: categorization-response parsing
(New_Main.py, handle_journal_logic, lines 683-694) -/

/-- One field of the categorization parse: Python
`re.search(label + r"\s*(.*)", resp, re.IGNORECASE)`, then `group(1).strip()`
when the search succeeds, else the default `"N/A"`.  The regex takes the first
case-insensitive occurrence of the literal `label`, greedily skips whitespace
(including newlines), captures to the end of that line, and the code strips
the capture. -/
def parseLabeledField (label resp : Str) : Str :=
  match splitOnFirstCI label resp with
  | none => "N/A".toList
  | some p => pyStrip ((p.2.dropWhile isPySpace).takeWhile (fun c => c != lfChar))

/-- The categorization parse: `(sentiment, topics, categories)`, each field
defaulting to the literal `"N/A"` when its labeled line is absent. -/
def parseCategorization (resp : Str) : Str × Str × Str :=
  (parseLabeledField "Sentiment:".toList resp,
   parseLabeledField "Topics:".toList resp,
   parseLabeledField "Categories:".toList resp)

/-! ### Journal pipeline: diagram label sanitization and topic filtering
(New_Main.py, handle_journal_logic, lines 749-754; test_topic_escaping.py) -/

/-- The sanitization New_Main.py line 753/754 applies to each topic/category
before embedding it in a DOT label:
`topic.strip().replace("-", "_").replace(" ", "_").replace("'", "")
 .replace(chr(96), "").replace(chr(34), "")`
(hyphens and spaces to underscores; single quotes, backticks and double
quotes deleted). -/
def sanitizeDotLabel (s : Str) : Str :=
  pyDeleteChar doubleQuoteChar
    (pyDeleteChar backtickChar
      (pyDeleteChar singleQuoteChar
        (pyReplaceChar ' ' '_' (pyReplaceChar '-' '_' (pyStrip s)))))

/-- The comprehension filter of New_Main.py line 753/754:
`if topic.strip() and topic != 'N/A'` — the element is kept when its strip is
non-empty and the raw (un-stripped) element differs from `"N/A"`. -/
def topicIncluded (topic : Str) : Bool :=
  !(pyStrip topic).isEmpty && topic != "N/A".toList

/-- The DOT fragment generated for one kept topic (New_Main.py line 753):
`topic{i} [label="Topic: {processed}", fillcolor="lightgreen"]; main -> topic{i};` -/
def topicNodeEntry (i : Nat) (topic : Str) : Str :=
  "topic".toList ++ (toString i).toList ++ " [label=".toList ++ [doubleQuoteChar] ++
  "Topic: ".toList ++ sanitizeDotLabel topic ++ [doubleQuoteChar] ++
  ", fillcolor=".toList ++ [doubleQuoteChar] ++ "lightgreen".toList ++
  [doubleQuoteChar] ++ "]; main -> topic".toList ++ (toString i).toList ++ ";".toList

/-- New_Main.py line 753: enumerate the comma-split topics string, keep the
elements passing `topicIncluded` (indices refer to positions before
filtering, as with Python `enumerate`), render each and join with spaces. -/
def topicsDotStr (topics : Str) : Str :=
  List.intercalate " ".toList
    ((((splitChar ',' topics).enum).filter (fun p => topicIncluded p.2)).map
      (fun p => topicNodeEntry p.1 p.2))

/-! ### Voice-input normalization gate
(New_Main.py, get_text_from_input, lines 523-551) -/

/-- Outcome of the transcription check in the voice branch: either the
normalization fails with a message (steps 3-4 are skipped and no text tagged
`audio` is returned), or it proceeds to the enhancement step with the raw
transcript. -/
inductive VoiceOutcome where
  | fail (msg : Str)
  | enhance (raw : Str)
deriving DecidableEq, Repr

/-- New_Main.py line 532-535: `if raw_text is None or "[" in raw_text:` return
the error (`raw_text or "❌ Transcription failed (Unknown error)."`); otherwise
continue to `add_punctuation_with_gemini`. -/
def voiceTranscriptCheck (raw : Option Str) : VoiceOutcome :=
  match raw with
  | none => .fail "❌ Transcription failed (Unknown error).".toList
  | some t =>
    if hasSubstr "[".toList t then
      .fail (if t.isEmpty then "❌ Transcription failed (Unknown error).".toList else t)
    else .enhance t

/-- New_Main.py line 193 (`add_punctuation_with_gemini`): an empty or
whitespace-only raw text is returned unchanged without calling the model. -/
def addPunctuationSkipsEmpty (raw : Str) : Bool :=
  raw.isEmpty || (pyStrip raw).isEmpty

/-! ### Daily prompt scheduler (New_Main.py, daily_prompt_scheduler,
lines 400-454) together with the preference persistence it calls
(db_utils.update_user_preferences). -/

/-- The recognised keys of the stored preferences mapping. Days are modelled
as day numbers (the code compares `%Y-%m-%d` strings for equality only). -/
structure PromptPrefs where
  daily_prompt_enabled : Bool
  preferred_prompt_time : Option Str
  last_prompt_sent_date : Option Nat
deriving DecidableEq, Repr

def digitVal (c : Char) : Option Nat :=
  if c.isDigit then some (c.toNat - 48) else none

def parse2Digit (s : Str) : Option Nat :=
  match s with
  | [a] => digitVal a
  | [a, b] =>
    match digitVal a, digitVal b with
    | some x, some y => some (10 * x + y)
    | _, _ => none
  | _ => none

/-- `datetime.strptime(s, "%H:%M").time()` as minutes past midnight, `none`
on the `ValueError` path (New_Main.py lines 428-432). -/
def parseTimeHM (s : Str) : Option Nat :=
  match splitChar ':' s with
  | [hs, ms] =>
    match parse2Digit hs, parse2Digit ms with
    | some h, some m => if h < 24 ∧ m < 60 then some (h * 60 + m) else none
    | _, _ => none
  | _ => none

/-- One scheduler scan as it treats a single opted-in user (New_Main.py lines
426-445), returning the user's stored preferences after the scan and the
number of prompts sent to the user (0 or 1).
`today` is the scan's UTC date, `nowMin` its UTC time-of-day in minutes,
`promptAvailable` whether `get_random_daily_prompt` finds a prompt, `sendOk`
whether the send succeeds.  The subsequent
`db_utils.update_user_preferences(user_id, other_prefs=preferences)` call
raises `NameError` (db_utils.py imports only sqlite3/os/datetime, lines 1-3,
yet calls `json.loads`/`json.dumps`), which the per-user `except Exception`
handler catches, so the stored `last_prompt_sent_date` is never updated. -/
def schedulerUserScan (prefs : PromptPrefs) (today nowMin : Nat)
    (promptAvailable sendOk : Bool) : PromptPrefs × Nat :=
  if prefs.daily_prompt_enabled = true ∧ prefs.last_prompt_sent_date ≠ some today then
    let prefMin := (parseTimeHM (prefs.preferred_prompt_time.getD "09:00".toList)).getD 540
    if prefMin ≤ nowMin then
      if promptAvailable then
        if sendOk then
          (prefs, 1)
        else (prefs, 0)
      else (prefs, 0)
    else (prefs, 0)
  else (prefs, 0)

/-- Modelled from the spec: `get_users_with_prompt_enabled() -> sequence of
(user_id, preferences)` (spec section 6).  The code calls
`db_utils.get_users_for_daily_prompt_check`, which no file of the repository
defines, so as shipped every scan raises `AttributeError`; the spec describes
the fetch as retrieving all users with the daily-prompt preference enabled. -/
def getUsersWithPromptEnabled (db : List (Nat × PromptPrefs)) : List (Nat × PromptPrefs) :=
  db.filter (fun u => u.2.daily_prompt_enabled)

/-- A whole scheduler scan over the users table: each fetched user is treated
by `schedulerUserScan`; because the preference persistence always fails (see
`schedulerUserScan`), the table is returned unchanged, together with the total
number of prompts sent. -/
def schedulerScan (db : List (Nat × PromptPrefs)) (today nowMin : Nat)
    (promptAvailable sendOk : Bool) : List (Nat × PromptPrefs) × Nat :=
  (db,
   ((getUsersWithPromptEnabled db).map
      (fun u => (schedulerUserScan u.2 today nowMin promptAvailable sendOk).2)).sum)

/-! ### Token-usage accounting (New_Main.py, initialize_token_data and
increment_token_usage, lines 129-152) -/

/-- The persisted token file: all-time total, daily date stamp (none for the
initial empty string) with daily count, and the last persisted session
figure. -/
structure TokenData where
  total : Nat
  dailyDate : Option Nat
  dailyCount : Nat
  session : Nat
deriving DecidableEq, Repr

/-- Process state: the persisted file plus the in-memory session cache. -/
structure TokenState where
  fileData : TokenData
  cacheSession : Nat
deriving DecidableEq, Repr

/-- The day-stamped core of `increment_token_usage(prompt_tokens,
candidate_tokens)`: load the file, reset the daily record when its date
differs from `today`, add `prompt + candidate` to the all-time total, the
daily count and the session cache, store the session cache into the file,
save.  The `today` argument is the calendar day the code computes at the
call site — see `increment_token_usage_at` for how New_Main.py line 141
actually derives it from `datetime.now()`, the process-local clock. -/
def increment_token_usage (p c today : Nat) (st : TokenState) : TokenState :=
  let inc := p + c
  let d0 := st.fileData
  let d1 := if d0.dailyDate ≠ some today then
      { d0 with dailyDate := some today, dailyCount := 0 }
    else d0
  let newCache := st.cacheSession + inc
  { fileData :=
      { d1 with
        total := d1.total + inc
        dailyCount := d1.dailyCount + inc
        session := newCache }
    cacheSession := newCache }

/-- `initialize_token_data()`: load the persisted file, zero the session
cache, save (New_Main.py lines 131-137). -/
def initialize_token_data (loaded : TokenData) : TokenState :=
  { fileData := { loaded with session := 0 }, cacheSession := 0 }

/-- Instants are minutes since an epoch; the UTC calendar day of an
instant. -/
def utcDay (utcMin : Nat) : Nat := utcMin / 1440

/-- The process-local calendar day of an instant, on a host whose local
clock runs `tzOffsetMin` minutes ahead of UTC. -/
def localDay (tzOffsetMin utcMin : Nat) : Nat := (utcMin + tzOffsetMin) / 1440

/-- `increment_token_usage` as the code actually invokes it: New_Main.py
line 141 computes `today = datetime.now().strftime("%Y-%m-%d")` — the naive
`datetime.now()` is the process-local clock (unlike the scheduler and the
database timestamps, which use `datetime.now(timezone.utc)`), so the day
stamp is the process-local calendar day of the wall-clock instant. -/
def increment_token_usage_at (p c tzOffsetMin utcMin : Nat) (st : TokenState) : TokenState :=
  increment_token_usage p c (localDay tzOffsetMin utcMin) st

/-! ### User upsert (db_utils.py, add_user, lines 95-115) -/

/-- A row of the `users` table (the columns the upsert touches; timestamps as
abstract instants). -/
structure UserRow where
  telegram_username : Option Str
  display_name : Option Str
  first_seen : Nat
  last_interaction : Nat
deriving DecidableEq, Repr

/-- `db_utils.add_user`: `INSERT ... ON CONFLICT(user_id) DO UPDATE SET
telegram_username = excluded.telegram_username, display_name =
COALESCE(excluded.display_name, users.display_name), last_interaction =
excluded.last_interaction`.  On conflict, `first_seen` is untouched and the
display name keeps its old value exactly when the supplied one is NULL
(`COALESCE` takes the first non-NULL argument — an empty string is not
NULL). -/
def add_user (db : Nat → Option UserRow) (uid : Nat)
    (username display : Option Str) (now : Nat) : Nat → Option UserRow :=
  fun id =>
    if id = uid then
      match db uid with
      | none => some ⟨username, display, now, now⟩
      | some row =>
        some ⟨username,
              (match display with
               | some d => some d
               | none => row.display_name),
              row.first_seen, now⟩
    else db id

/-! ### Preference update (db_utils.py, update_user_preferences,
lines 137-163) -/

/-- Result of a Python call: a returned value, or a propagated exception. -/
inductive PyResult (α : Type) where
  | ok (val : α)
  | exn (name : Str)
deriving DecidableEq, Repr

/-- `db_utils.update_user_preferences(user_id, display_name?, other_prefs?)`.
`storedPreferences` is the `preferences` column of the user's row (`none`
when the row is absent or the column NULL — the code's
`if current_prefs_json and current_prefs_json[0]` truthiness test also skips
an empty string, modelled by the emptiness check).  db_utils.py imports only
sqlite3, os and datetime (lines 1-3): the `json.loads` call on a non-empty
stored preferences text and the `json.dumps` call reached whenever
`other_prefs` is supplied both raise `NameError`, and the function's
`except sqlite3.Error` clause does not catch `NameError`, so it propagates
to the caller instead of producing the `False` result. -/
def update_user_preferences (storedPreferences : Option Str)
    (display_name : Option Str) (other_prefs : Option (List (Str × Str))) :
    PyResult Bool :=
  let loadsRaises :=
    match storedPreferences with
    | some s => !s.isEmpty
    | none => false
  if loadsRaises then .exn "NameError".toList
  else
    let _ := display_name
    if other_prefs.isSome then .exn "NameError".toList
    else .ok true

/-! ### Chatbot mode reply (utils.py, reverse_alphabet; New_Main.py,
handle_chatbot_logic, lines 618-629) -/

/-- The codepoint map of `utils.reverse_alphabet`:
`chr(ord("a") + (ord("z") - ord(c)))` on lowercase letters (97-122),
`chr(ord("A") + (ord("Z") - ord(c)))` on uppercase letters (65-90),
identity elsewhere. -/
def revAlphaNat (n : Nat) : Nat :=
  if 97 ≤ n ∧ n ≤ 122 then 97 + (122 - n)
  else if 65 ≤ n ∧ n ≤ 90 then 65 + (90 - n)
  else n

def revAlphaChar (c : Char) : Char := Char.ofNat (revAlphaNat c.toNat)

/-- `utils.reverse_alphabet`: apply `revAlphaChar` to every character. -/
def reverse_alphabet (s : Str) : Str := s.map revAlphaChar

/-- The text `handle_chatbot_logic` shows the user for a model response
(New_Main.py lines 622-629): error and blocked responses are echoed inside a
fixed message; a normal response is shown as its `reverse_alphabet` image. -/
def handleChatbotReply (response_text : Option Str) : Str :=
  match response_text with
  | none => "Sorry, there was an error communicating with the AI. ".toList
  | some t =>
    if hasSubstr "[API ERROR:".toList t then
      "Sorry, there was an error communicating with the AI. ".toList ++ t
    else if hasSubstr "[BLOCKED:".toList t then
      "My response was blocked: ".toList ++ t
    else reverse_alphabet t

/-! ### Concrete example inputs used by the claim theorems -/

/-- The topic input named by the spec:
`Test "Topic" - for 'project' & `code`` (built from character constants to
keep quoting explicit). -/
def citedTopicExample : Str :=
  "Test ".toList ++ [doubleQuoteChar] ++ "Topic".toList ++ [doubleQuoteChar] ++
  " - for ".toList ++ [singleQuoteChar] ++ "project".toList ++ [singleQuoteChar] ++
  " & ".toList ++ [backtickChar] ++ "code".toList ++ [backtickChar]

/-- A one-row users table: user 1 with username `bob`, display name `Bob`. -/
def c8ExampleDb : Nat → Option UserRow :=
  fun id => if id = 1 then some ⟨some "bob".toList, some "Bob".toList, 0, 0⟩ else none

/-! ### Helper lemmas about the string model -/

theorem splitOnFirst_pos (pat s : Str) (h : pat.isPrefixOf s = true) :
    splitOnFirst pat s = some ([], s.drop pat.length) := by
  unfold splitOnFirst
  rw [if_pos h]

theorem splitOnFirst_neg_cons (pat : Str) (c : Char) (rest : Str)
    (h : pat.isPrefixOf (c :: rest) = false) :
    splitOnFirst pat (c :: rest) = (splitOnFirst pat rest).map (fun p => (c :: p.1, p.2)) := by
  conv_lhs => unfold splitOnFirst
  rw [if_neg (by simp [h])]

/-- `splitOnFirst` really does split at the given occurrence when no earlier
position starts an occurrence of the pattern. -/
theorem splitOnFirst_first_occurrence (pat rest : Str) (pre : Str)
    (h : ∀ i, i < pre.length → pat.isPrefixOf (List.drop i (pre ++ pat ++ rest)) = false) :
    splitOnFirst pat (pre ++ pat ++ rest) = some (pre, rest) := by
  induction pre with
  | nil =>
    have hp := List.prefix_append pat rest
    have hpp : pat.isPrefixOf (pat ++ rest) = true := List.isPrefixOf_iff_prefix.mpr hp
    rw [List.nil_append, splitOnFirst_pos pat _ hpp, List.drop_left]
  | cons c pre' ih =>
    have h0 : pat.isPrefixOf (c :: (pre' ++ pat ++ rest)) = false := by
      have h00 := h 0 (by simp)
      simpa using h00
    have hshape : (c :: pre') ++ pat ++ rest = c :: (pre' ++ pat ++ rest) := by simp
    rw [hshape, splitOnFirst_neg_cons pat c _ h0,
      ih (fun i hi => by
        have hh := h (i + 1) (by simp only [List.length_cons]; omega)
        rw [hshape, List.drop_succ_cons] at hh
        exact hh)]
    rfl

theorem splitOnFirst_eq_none_of (pat s : Str) (h : hasSubstr pat s = false) :
    splitOnFirst pat s = none := by
  unfold hasSubstr at h
  exact Option.not_isSome_iff_eq_none.mp (by simp [h])

/-- The stripped string sits inside the original string. -/
theorem pyStrip_subsegment (s : Str) : ∃ u v, s = u ++ pyStrip s ++ v := by
  refine ⟨s.takeWhile isPySpace,
    ((s.dropWhile isPySpace).reverse.takeWhile isPySpace).reverse, ?_⟩
  unfold pyStrip
  conv_lhs => rw [← List.takeWhile_append_dropWhile isPySpace s]
  rw [List.append_assoc]
  congr 1
  conv_lhs => rw [← List.reverse_reverse (s.dropWhile isPySpace),
    ← List.takeWhile_append_dropWhile isPySpace (s.dropWhile isPySpace).reverse,
    List.reverse_append]

theorem mem_of_mem_pyStrip (c : Char) (s : Str) (h : c ∈ pyStrip s) : c ∈ s := by
  obtain ⟨u, v, he⟩ := pyStrip_subsegment s
  rw [he]
  simp [h]

/-- The strip of any suffix of the string sits inside the string. -/
theorem pyStrip_drop_subsegment (k : Nat) (cand : Str) :
    ∃ u v, cand = u ++ pyStrip (cand.drop k) ++ v := by
  obtain ⟨u, v, h⟩ := pyStrip_subsegment (cand.drop k)
  set w := pyStrip (cand.drop k)
  refine ⟨cand.take k ++ u, v, ?_⟩
  conv_lhs => rw [← List.take_append_drop k cand, h]
  simp [List.append_assoc]

/-- The user-facing analysis text is carved out of the candidate text. -/
theorem analysisFromCandidate_subsegment (cand : Str) :
    ∃ u v, cand = u ++ analysisFromCandidate cand ++ v := by
  unfold analysisFromCandidate
  split
  · cases hsp : splitOnFirst colonStarStar cand with
    | none => simpa using pyStrip_drop_subsegment 2 cand
    | some p => simpa using pyStrip_drop_subsegment (p.1.length + 3) cand
  · obtain ⟨u, v, h⟩ := pyStrip_subsegment cand
    exact ⟨u, v, h⟩

theorem dropWhile_eq_self_of (p : Char → Bool) (s : Str) (h : ∀ c ∈ s, p c = false) :
    s.dropWhile p = s := by
  cases s with
  | nil => rfl
  | cons c t =>
    rw [List.dropWhile_cons, h c (by simp)]
    simp

theorem pyStrip_eq_self_of (s : Str) (h : ∀ c ∈ s, isPySpace c = false) : pyStrip s = s := by
  unfold pyStrip
  rw [dropWhile_eq_self_of _ _ h,
    dropWhile_eq_self_of _ _ (fun c hc => h c (List.mem_reverse.mp hc)),
    List.reverse_reverse]

theorem pyReplaceChar_eq_self_of (a b : Char) (s : Str) (h : ∀ c ∈ s, c ≠ a) :
    pyReplaceChar a b s = s := by
  unfold pyReplaceChar
  conv_rhs => rw [← List.map_id s]
  exact List.map_congr_left (fun c hc => by simp [h c hc])

theorem pyDeleteChar_eq_self_of (a : Char) (s : Str) (h : ∀ c ∈ s, c ≠ a) :
    pyDeleteChar a s = s := by
  unfold pyDeleteChar
  exact List.filter_eq_self.mpr (fun c hc => by simp [h c hc])

theorem mem_pyReplaceChar_cases (a b c : Char) (s : Str) (h : c ∈ pyReplaceChar a b s) :
    c = b ∨ (c ∈ s ∧ c ≠ a) := by
  unfold pyReplaceChar at h
  rw [List.mem_map] at h
  obtain ⟨d, hd, he⟩ := h
  by_cases hda : d = a
  · left
    rw [if_pos hda] at he
    exact he.symm
  · right
    rw [if_neg hda] at he
    rw [← he]
    exact ⟨hd, hda⟩

theorem mem_pyDeleteChar_cases (a c : Char) (s : Str) (h : c ∈ pyDeleteChar a s) :
    c ∈ s ∧ c ≠ a := by
  unfold pyDeleteChar at h
  rw [List.mem_filter] at h
  exact ⟨h.1, by simpa using h.2⟩

/-- Characterisation of the characters a sanitized label can contain. -/
theorem mem_sanitizeDotLabel_cases (s : Str) (c : Char) (h : c ∈ sanitizeDotLabel s) :
    (c = '_' ∨ (c ∈ s ∧ c ≠ '-' ∧ c ≠ ' '))
    ∧ c ≠ singleQuoteChar ∧ c ≠ backtickChar ∧ c ≠ doubleQuoteChar ∧ c ≠ ' ' := by
  unfold sanitizeDotLabel at h
  obtain ⟨h, hdq⟩ := mem_pyDeleteChar_cases _ _ _ h
  obtain ⟨h, hbq⟩ := mem_pyDeleteChar_cases _ _ _ h
  obtain ⟨h, hsq⟩ := mem_pyDeleteChar_cases _ _ _ h
  have hcore : c = '_' ∨ (c ∈ pyStrip s ∧ c ≠ '-' ∧ c ≠ ' ') := by
    rcases mem_pyReplaceChar_cases _ _ _ _ h with h1 | ⟨h1, hsp⟩
    · exact Or.inl h1
    · rcases mem_pyReplaceChar_cases _ _ _ _ h1 with h2 | ⟨h2, hhy⟩
      · exact Or.inl h2
      · exact Or.inr ⟨h2, hhy, hsp⟩
  have hnotsp : c ≠ ' ' := by
    rcases hcore with h1 | ⟨_, _, h1⟩
    · rw [h1]; decide
    · exact h1
  refine ⟨?_, hsq, hbq, hdq, hnotsp⟩
  rcases hcore with h1 | ⟨h1, h2, h3⟩
  · exact Or.inl h1
  · exact Or.inr ⟨mem_of_mem_pyStrip c s h1, h2, h3⟩

/-- When every whitespace character of the input is a plain space, the
sanitized output contains no whitespace and none of the replaced/deleted
characters, so a second sanitization pass is the identity. -/
theorem sanitizeDotLabel_chars (s : Str) (hw : ∀ c ∈ s, isPySpace c = true → c = ' ') :
    ∀ c ∈ sanitizeDotLabel s,
      isPySpace c = false ∧ c ≠ '-' ∧ c ≠ ' ' ∧ c ≠ singleQuoteChar
      ∧ c ≠ backtickChar ∧ c ≠ doubleQuoteChar := by
  intro c hc
  obtain ⟨hcore, hsq, hbq, hdq, hnsp⟩ := mem_sanitizeDotLabel_cases s c hc
  have hws : isPySpace c = false := by
    rcases hcore with h1 | ⟨h1, _, _⟩
    · rw [h1]; decide
    · cases hsp : isPySpace c with
      | false => rfl
      | true => exact absurd (hw c h1 hsp) hnsp
  have hhy : c ≠ '-' := by
    rcases hcore with h1 | ⟨_, h1, _⟩
    · rw [h1]; decide
    · exact h1
  exact ⟨hws, hhy, hnsp, hsq, hbq, hdq⟩

theorem sanitizeDotLabel_idem_of (s : Str) (hw : ∀ c ∈ s, isPySpace c = true → c = ' ') :
    sanitizeDotLabel (sanitizeDotLabel s) = sanitizeDotLabel s := by
  have hc := sanitizeDotLabel_chars s hw
  set t := sanitizeDotLabel s with ht
  conv_lhs => unfold sanitizeDotLabel
  rw [pyStrip_eq_self_of t (fun c hct => (hc c hct).1),
    pyReplaceChar_eq_self_of _ _ t (fun c hct => (hc c hct).2.1),
    pyReplaceChar_eq_self_of _ _ t (fun c hct => (hc c hct).2.2.1),
    pyDeleteChar_eq_self_of _ t (fun c hct => (hc c hct).2.2.2.1),
    pyDeleteChar_eq_self_of _ t (fun c hct => (hc c hct).2.2.2.2.1),
    pyDeleteChar_eq_self_of _ t (fun c hct => (hc c hct).2.2.2.2.2)]

/-! ### Helper lemmas about characters and the alphabet reversal -/

theorem charToNatOfNat (n : Nat) (h : n.isValidChar) : (Char.ofNat n).toNat = n := by
  unfold Char.ofNat
  rw [dif_pos h]
  rfl

theorem char_le_iff_toNat_le (a b : Char) : a ≤ b ↔ a.toNat ≤ b.toNat := by
  rw [Char.le_def, UInt32.le_def, BitVec.le_def]
  exact Iff.rfl

theorem char_between_lower (c : Char) :
    ('a' ≤ c ∧ c ≤ 'z') ↔ (97 ≤ c.toNat ∧ c.toNat ≤ 122) := by
  rw [char_le_iff_toNat_le, char_le_iff_toNat_le]
  have h1 : ('a' : Char).toNat = 97 := by decide
  have h2 : ('z' : Char).toNat = 122 := by decide
  rw [h1, h2]

theorem char_between_upper (c : Char) :
    ('A' ≤ c ∧ c ≤ 'Z') ↔ (65 ≤ c.toNat ∧ c.toNat ≤ 90) := by
  rw [char_le_iff_toNat_le, char_le_iff_toNat_le]
  have h1 : ('A' : Char).toNat = 65 := by decide
  have h2 : ('Z' : Char).toNat = 90 := by decide
  rw [h1, h2]

theorem char_valid_toNat (c : Char) : Nat.isValidChar c.toNat := c.valid

theorem revAlphaNat_valid (n : Nat) (h : Nat.isValidChar n) :
    Nat.isValidChar (revAlphaNat n) := by
  unfold revAlphaNat
  unfold Nat.isValidChar at h ⊢
  split_ifs with h1 h2
  · exact Or.inl (by omega)
  · exact Or.inl (by omega)
  · exact h

theorem revAlphaNat_invol (n : Nat) : revAlphaNat (revAlphaNat n) = n := by
  unfold revAlphaNat
  split_ifs <;> omega

theorem revAlphaChar_invol (c : Char) : revAlphaChar (revAlphaChar c) = c := by
  unfold revAlphaChar
  rw [charToNatOfNat _ (revAlphaNat_valid _ (char_valid_toNat c)), revAlphaNat_invol,
    Char.ofNat_toNat]

theorem revAlphaChar_eq_self (c : Char) (h1 : ¬('a' ≤ c ∧ c ≤ 'z'))
    (h2 : ¬('A' ≤ c ∧ c ≤ 'Z')) : revAlphaChar c = c := by
  rw [char_between_lower] at h1
  rw [char_between_upper] at h2
  have hn : revAlphaNat c.toNat = c.toNat := by
    unfold revAlphaNat
    rw [if_neg h1, if_neg h2]
  unfold revAlphaChar
  rw [hn, Char.ofNat_toNat]

theorem reverse_alphabet_invol (s : Str) : reverse_alphabet (reverse_alphabet s) = s := by
  unfold reverse_alphabet
  have hid : revAlphaChar ∘ revAlphaChar = id := funext revAlphaChar_invol
  rw [List.map_map, hid, List.map_id]

/-! ## Claim theorems -/

/-- C1: In the journal pipeline's reflective-analysis step, for every model
response of the form `pre ++ "--- DOT START ---" ++ mid ++ "--- DOT END ---"
++ post` in which the matched markers are the first start marker and the
first end marker after it, the extracted diagram description equals the
whitespace-trimmed text between the markers and the user-facing analysis
text is carved out of the text before the start marker (so it excludes both
marker lines and everything between them); for every response with no
markers, the entire response becomes the analysis and no diagram description
is produced. -/
theorem c1_dot_extraction (pre mid post resp : Str)
    (hresp : resp = pre ++ dotStartMarker ++ (mid ++ dotEndMarker ++ post))
    (hpre : ∀ i, i < pre.length → dotStartMarker.isPrefixOf (List.drop i resp) = false)
    (hmid : ∀ j, j < mid.length →
      dotEndMarker.isPrefixOf (List.drop j (mid ++ dotEndMarker ++ post)) = false) :
    journalAnalysisParse resp = (some (pyStrip mid), analysisFromCandidate pre)
    ∧ (∃ u v, pre = u ++ analysisFromCandidate pre ++ v)
    ∧ (∀ r : Str, hasSubstr dotStartMarker r = false → journalAnalysisParse r = (none, r)) := by
  subst hresp
  have h1 := splitOnFirst_first_occurrence dotStartMarker (mid ++ dotEndMarker ++ post) pre hpre
  have h2 := splitOnFirst_first_occurrence dotEndMarker post mid hmid
  refine ⟨?_, analysisFromCandidate_subsegment pre, ?_⟩
  · simp only [journalAnalysisParse, h1, h2]
  · intro r hr
    simp only [journalAnalysisParse, splitOnFirst_eq_none_of dotStartMarker r hr]

/-- Witness for C1 at the spec's example response. -/
theorem c1_dot_extraction_witness :
    journalAnalysisParse
        "intro text\n--- DOT START ---\ndigraph\x7ba->b\x7d\n--- DOT END ---\ntrailer".toList =
      (some "digraph\x7ba->b\x7d".toList, "intro text".toList) := by
  have h := c1_dot_extraction "intro text\n".toList "\ndigraph\x7ba->b\x7d\n".toList
    "\ntrailer".toList
    "intro text\n--- DOT START ---\ndigraph\x7ba->b\x7d\n--- DOT END ---\ntrailer".toList
    (by decide) (by decide) (by decide)
  exact h.1.trans (by decide)

/-- C2: Categorization parsing is a pure tolerant parser: the spec's example
response parses to sentiment `Hopeful`, topics `Work, Family`, categories
`Workplace`, and for every response with no case-insensitive occurrence of a
label, the corresponding field resolves to the literal string `N/A`. -/
theorem c2_categorization_parsing (respS respT respC : Str)
    (hS : hasSubstrCI "Sentiment:".toList respS = false)
    (hT : hasSubstrCI "Topics:".toList respT = false)
    (hC : hasSubstrCI "Categories:".toList respC = false) :
    parseCategorization
        "Sentiment: Hopeful\nTopics: Work, Family\nCategories: Workplace".toList =
      ("Hopeful".toList, "Work, Family".toList, "Workplace".toList)
    ∧ (parseCategorization respS).1 = "N/A".toList
    ∧ (parseCategorization respT).2.1 = "N/A".toList
    ∧ (parseCategorization respC).2.2 = "N/A".toList := by
  have hnone : ∀ lab r : Str, hasSubstrCI lab r = false →
      parseLabeledField lab r = "N/A".toList := by
    intro lab r hr
    cases hsp : splitOnFirstCI lab r with
    | none => simp [parseLabeledField, hsp]
    | some p =>
      unfold hasSubstrCI at hr
      rw [hsp] at hr
      simp at hr
  exact ⟨by decide, hnone _ respS hS, hnone _ respT hT, hnone _ respC hC⟩

/-- Witness for C2: the example response, and a response with no labeled
lines at all. -/
theorem c2_categorization_parsing_witness :
    parseCategorization
        "Sentiment: Hopeful\nTopics: Work, Family\nCategories: Workplace".toList =
      ("Hopeful".toList, "Work, Family".toList, "Workplace".toList)
    ∧ (parseCategorization "no labeled lines at all".toList).1 = "N/A".toList
    ∧ (parseCategorization "no labeled lines at all".toList).2.1 = "N/A".toList
    ∧ (parseCategorization "no labeled lines at all".toList).2.2 = "N/A".toList :=
  c2_categorization_parsing "no labeled lines at all".toList
    "no labeled lines at all".toList "no labeled lines at all".toList
    (by decide) (by decide) (by decide)

/-- C3 counterexample: the sanitization is not idempotent.  For the input
consisting of a single quote, a tab and a letter, the first pass deletes the
quote and exposes a leading tab, which only the second pass strips, so
applying the sanitization twice differs from applying it once. -/
theorem c3_sanitize_not_idempotent :
    sanitizeDotLabel (sanitizeDotLabel [singleQuoteChar, tabChar, 'a']) ≠
      sanitizeDotLabel [singleQuoteChar, tabChar, 'a'] := by decide

/-- C3 (amended): the sanitization is total, and for every input the
sanitized label text contains no single quote, no backtick, no space and no
double quote at all (double quotes are deleted rather than escaped, so in
particular no unescaped double quote remains); it is idempotent on every
input whose whitespace characters are all plain spaces — which covers the
spec's example topic — but not on arbitrary inputs. -/
theorem c3_sanitize_amended (s t : Str) (hw : ∀ c ∈ t, isPySpace c = true → c = ' ') :
    singleQuoteChar ∉ sanitizeDotLabel s
    ∧ backtickChar ∉ sanitizeDotLabel s
    ∧ ' ' ∉ sanitizeDotLabel s
    ∧ doubleQuoteChar ∉ sanitizeDotLabel s
    ∧ sanitizeDotLabel (sanitizeDotLabel t) = sanitizeDotLabel t := by
  refine ⟨fun h => ?_, fun h => ?_, fun h => ?_, fun h => ?_,
    sanitizeDotLabel_idem_of t hw⟩
  · exact (mem_sanitizeDotLabel_cases s _ h).2.1 rfl
  · exact (mem_sanitizeDotLabel_cases s _ h).2.2.1 rfl
  · exact (mem_sanitizeDotLabel_cases s _ h).2.2.2.2 rfl
  · exact (mem_sanitizeDotLabel_cases s _ h).2.2.2.1 rfl

/-- Witness for C3 (amended) at the spec's example topic. -/
theorem c3_sanitize_amended_witness :
    (singleQuoteChar ∉ sanitizeDotLabel citedTopicExample
     ∧ backtickChar ∉ sanitizeDotLabel citedTopicExample
     ∧ ' ' ∉ sanitizeDotLabel citedTopicExample
     ∧ doubleQuoteChar ∉ sanitizeDotLabel citedTopicExample
     ∧ sanitizeDotLabel (sanitizeDotLabel citedTopicExample) =
         sanitizeDotLabel citedTopicExample)
    ∧ sanitizeDotLabel citedTopicExample = "Test_Topic___for_project_&_code".toList :=
  ⟨c3_sanitize_amended citedTopicExample citedTopicExample (by decide), by decide⟩

/-- C4 counterexample: an element consisting of `N/A` surrounded by
whitespace trims to `N/A`, yet it passes the code's filter and produces a
label node (`Topic: N/A`) in the generated diagram text, contradicting the
claim that such elements are excluded. -/
theorem c4_na_whitespace_included :
    pyStrip " N/A ".toList = "N/A".toList
    ∧ topicIncluded " N/A ".toList = true
    ∧ hasSubstr "Topic: N/A".toList (topicsDotStr "Work, N/A ".toList) = true := by decide

/-- C4 (amended): an element is excluded from diagram generation exactly
when it is empty after trimming or is exactly the string `N/A` without
surrounding whitespace; an element consisting of `N/A` surrounded by
whitespace is included. -/
theorem c4_exclusion_amended :
    (∀ t : Str, topicIncluded t = false ↔ (pyStrip t = [] ∨ t = "N/A".toList))
    ∧ topicIncluded " N/A ".toList = true
    ∧ topicIncluded "N/A".toList = false
    ∧ topicIncluded "  ".toList = false := by
  refine ⟨?_, by decide, by decide, by decide⟩
  intro t
  unfold topicIncluded
  simp [List.isEmpty_iff]
  tauto

/-- C5 counterexample: an empty transcription result does not fail the
normalization — it proceeds to the enhancement step (which returns an empty
text unchanged), contradicting the claim that an empty result fails with
that message. -/
theorem c5_empty_transcript_proceeds :
    voiceTranscriptCheck (some []) = VoiceOutcome.enhance []
    ∧ addPunctuationSkipsEmpty [] = true := by decide

/-- C5 (amended): the voice normalization fails exactly for a `None`
transcription result (with the fixed fallback message) and for every result
containing the character `[` — which covers all the transcriber's not-found/
unavailable/blocked/error markers — and in the failure case the enhancement
and transcript-display steps are skipped (no text tagged `audio` is
returned); every result not containing `[`, including the empty string,
proceeds to the enhancement step. -/
theorem c5_voice_gate_amended (t u : Str)
    (ht : hasSubstr "[".toList t = true)
    (hu : hasSubstr "[".toList u = false) :
    voiceTranscriptCheck none =
      VoiceOutcome.fail "❌ Transcription failed (Unknown error).".toList
    ∧ voiceTranscriptCheck (some t) = VoiceOutcome.fail t
    ∧ voiceTranscriptCheck (some u) = VoiceOutcome.enhance u
    ∧ hasSubstr "[".toList "[File Not Found Error]".toList = true
    ∧ hasSubstr "[".toList "[AI Service Unavailable]".toList = true
    ∧ hasSubstr "[".toList "[No transcription content]".toList = true
    ∧ hasSubstr "[".toList "[BLOCKED: reason]".toList = true
    ∧ hasSubstr "[".toList "[AI Transcription Error: ValueError]".toList = true := by
  have hne : t ≠ [] := by
    intro he
    rw [he] at ht
    exact absurd ht (by decide)
  have hemp : t.isEmpty = false := by
    cases t with
    | nil => exact absurd rfl hne
    | cons a l => rfl
  refine ⟨rfl, ?_, ?_, by decide, by decide, by decide, by decide, by decide⟩
  · simp [voiceTranscriptCheck, hemp]
    simpa using ht
  · simp [voiceTranscriptCheck]
    simpa using hu

/-- Witness for C5 (amended) at a blocked-marker result and a plain
transcript. -/
theorem c5_voice_gate_amended_witness :
    voiceTranscriptCheck none =
      VoiceOutcome.fail "❌ Transcription failed (Unknown error).".toList
    ∧ voiceTranscriptCheck (some "[BLOCKED: safety]".toList) =
      VoiceOutcome.fail "[BLOCKED: safety]".toList
    ∧ voiceTranscriptCheck (some "hello there".toList) =
      VoiceOutcome.enhance "hello there".toList := by
  have h := c5_voice_gate_amended "[BLOCKED: safety]".toList "hello there".toList
    (by decide) (by decide)
  exact ⟨h.1, h.2.1, h.2.2.1⟩

/-- C6: the claim says the scheduler sends exactly one prompt per eligible
user per UTC day.  On the code as shipped this fails: the scheduler's
preference persistence raises `NameError` (db_utils.py never imports `json`),
the per-user handler swallows it, so `last_prompt_sent_date` is never
recorded — an eligible user (enabled, preferred time 09:00, last sent
yesterday = day 0) is sent a prompt by the 10:00 scan with the stored
preferences unchanged, and the 11:00 scan of the same UTC day (day 1) sends a
second prompt: two prompts in one UTC day. -/
theorem c6_scheduler_double_send :
    schedulerScan [(7, ⟨true, some "09:00".toList, some 0⟩)] 1 600 true true =
      ([(7, ⟨true, some "09:00".toList, some 0⟩)], 1)
    ∧ (schedulerScan
        ((schedulerScan [(7, ⟨true, some "09:00".toList, some 0⟩)] 1 600 true true).1)
        1 660 true true).2 = 1
    ∧ (schedulerScan [(7, ⟨true, some "09:00".toList, some 0⟩)] 1 600 true true).2
      + (schedulerScan
          ((schedulerScan [(7, ⟨true, some "09:00".toList, some 0⟩)] 1 600 true true).1)
          1 660 true true).2 = 2 := by decide

/-- Helper: day-stamped token accounting.  Starting from a zeroed session
counter on a day with no tokens recorded yet, the three increments (10,5),
(3,2), (0,1) stamped with one and the same day yield session total 21 (both
in the cache and the persisted file), daily total 21, all-time total equal
to its prior value plus 21; and in general an increment resets the daily
counter exactly when the stored daily date differs from the stamped day. -/
theorem tokenAccounting_on_day (st0 : TokenState) (today : Nat)
    (hsession : st0.cacheSession = 0)
    (hdate : st0.fileData.dailyDate ≠ some today) :
    (increment_token_usage 0 1 today (increment_token_usage 3 2 today
      (increment_token_usage 10 5 today st0))).cacheSession = 21
    ∧ (increment_token_usage 0 1 today (increment_token_usage 3 2 today
        (increment_token_usage 10 5 today st0))).fileData.session = 21
    ∧ (increment_token_usage 0 1 today (increment_token_usage 3 2 today
        (increment_token_usage 10 5 today st0))).fileData.dailyCount = 21
    ∧ (increment_token_usage 0 1 today (increment_token_usage 3 2 today
        (increment_token_usage 10 5 today st0))).fileData.total =
        st0.fileData.total + 21
    ∧ (increment_token_usage 0 1 today (increment_token_usage 3 2 today
        (increment_token_usage 10 5 today st0))).fileData.dailyDate = some today
    ∧ (∀ (st : TokenState) (p c d : Nat),
        (increment_token_usage p c d st).fileData.dailyCount =
          (if st.fileData.dailyDate = some d then st.fileData.dailyCount else 0) + (p + c)
        ∧ (increment_token_usage p c d st).fileData.dailyDate = some d
        ∧ (increment_token_usage p c d st).fileData.total = st.fileData.total + (p + c)) := by
  obtain ⟨⟨T, dd, dc, ss⟩, cache⟩ := st0
  simp only at hsession hdate
  subst hsession
  refine ⟨?_, ?_, ?_, ?_, ?_, ?_⟩
  · simp [increment_token_usage, hdate]
  · simp [increment_token_usage, hdate]
  · simp [increment_token_usage, hdate]
  · simp [increment_token_usage, hdate]
  · simp [increment_token_usage, hdate]
  · intro st p c d
    obtain ⟨⟨T2, dd2, dc2, ss2⟩, cache2⟩ := st
    by_cases hdd : dd2 = some d
    · simp [increment_token_usage, hdd]
    · simp [increment_token_usage, hdd]

/-- C7 counterexample: the claim asserts same-UTC-day totals and a reset
exactly at the UTC-day boundary, but New_Main.py line 141 stamps days with
`datetime.now()`, the process-local clock.  On a host whose local clock runs
120 minutes ahead of UTC, the increments (10,5), (3,2), (0,1) at 21:00,
23:00 and 23:30 UTC of one and the same UTC day (day 0) straddle the local
midnight: the daily counter resets mid-UTC-day and the daily total ends at
6, not 21, while session and all-time totals are unaffected. -/
theorem c7_utc_reset_counterexample :
    utcDay 1260 = 0 ∧ utcDay 1380 = 0 ∧ utcDay 1410 = 0
    ∧ localDay 120 1260 = 0 ∧ localDay 120 1380 = 1 ∧ localDay 120 1410 = 1
    ∧ (increment_token_usage_at 0 1 120 1410 (increment_token_usage_at 3 2 120 1380
        (increment_token_usage_at 10 5 120 1260
          (initialize_token_data ⟨100, none, 0, 7⟩)))).fileData.dailyCount = 6
    ∧ (increment_token_usage_at 0 1 120 1410 (increment_token_usage_at 3 2 120 1380
        (increment_token_usage_at 10 5 120 1260
          (initialize_token_data ⟨100, none, 0, 7⟩)))).cacheSession = 21
    ∧ (increment_token_usage_at 0 1 120 1410 (increment_token_usage_at 3 2 120 1380
        (increment_token_usage_at 10 5 120 1260
          (initialize_token_data ⟨100, none, 0, 7⟩)))).fileData.total = 121 := by decide

/-- C7 (amended): the counter stamps days with the process-local calendar
day, not the UTC day.  Starting from a zeroed session counter with no tokens
recorded for the current local day, three increments (10,5), (3,2), (0,1) at
instants falling on the same process-local day yield session total 21 (cache
and persisted file), daily total 21, and all-time total equal to its prior
value plus 21; and an increment resets the daily counter exactly when the
stored daily date differs from the local day of the instant — the daily
counter resets at the process-local day boundary, which coincides with the
UTC-day boundary only on a host whose local clock is UTC. -/
theorem c7_token_accounting_amended (st0 : TokenState) (tz m1 m2 m3 : Nat)
    (hsession : st0.cacheSession = 0)
    (hdate : st0.fileData.dailyDate ≠ some (localDay tz m1))
    (h12 : localDay tz m1 = localDay tz m2)
    (h23 : localDay tz m2 = localDay tz m3) :
    (increment_token_usage_at 0 1 tz m3 (increment_token_usage_at 3 2 tz m2
      (increment_token_usage_at 10 5 tz m1 st0))).cacheSession = 21
    ∧ (increment_token_usage_at 0 1 tz m3 (increment_token_usage_at 3 2 tz m2
        (increment_token_usage_at 10 5 tz m1 st0))).fileData.session = 21
    ∧ (increment_token_usage_at 0 1 tz m3 (increment_token_usage_at 3 2 tz m2
        (increment_token_usage_at 10 5 tz m1 st0))).fileData.dailyCount = 21
    ∧ (increment_token_usage_at 0 1 tz m3 (increment_token_usage_at 3 2 tz m2
        (increment_token_usage_at 10 5 tz m1 st0))).fileData.total =
        st0.fileData.total + 21
    ∧ (increment_token_usage_at 0 1 tz m3 (increment_token_usage_at 3 2 tz m2
        (increment_token_usage_at 10 5 tz m1 st0))).fileData.dailyDate =
        some (localDay tz m3)
    ∧ (∀ (st : TokenState) (p c tz2 m : Nat),
        (increment_token_usage_at p c tz2 m st).fileData.dailyCount =
          (if st.fileData.dailyDate = some (localDay tz2 m) then st.fileData.dailyCount
           else 0) + (p + c)
        ∧ (increment_token_usage_at p c tz2 m st).fileData.dailyDate =
            some (localDay tz2 m)
        ∧ (increment_token_usage_at p c tz2 m st).fileData.total =
            st.fileData.total + (p + c)) := by
  have h := tokenAccounting_on_day st0 (localDay tz m1) hsession hdate
  unfold increment_token_usage_at
  rw [← h23, ← h12]
  exact ⟨h.1, h.2.1, h.2.2.1, h.2.2.2.1, h.2.2.2.2.1,
    fun st p c tz2 m => h.2.2.2.2.2 st p c (localDay tz2 m)⟩

/-- Witness for C7 (amended): three increments on local day 3 of a host 120
minutes ahead of UTC, starting from a freshly initialized state whose daily
record is for day 2. -/
theorem c7_token_accounting_amended_witness :
    (increment_token_usage_at 0 1 120 4320 (increment_token_usage_at 3 2 120 4260
      (increment_token_usage_at 10 5 120 4200
        (initialize_token_data ⟨100, some 2, 40, 7⟩)))).cacheSession = 21
    ∧ (increment_token_usage_at 0 1 120 4320 (increment_token_usage_at 3 2 120 4260
        (increment_token_usage_at 10 5 120 4200
          (initialize_token_data ⟨100, some 2, 40, 7⟩)))).fileData.dailyCount = 21
    ∧ (increment_token_usage_at 0 1 120 4320 (increment_token_usage_at 3 2 120 4260
        (increment_token_usage_at 10 5 120 4200
          (initialize_token_data ⟨100, some 2, 40, 7⟩)))).fileData.total = 121 := by
  have h := c7_token_accounting_amended (initialize_token_data ⟨100, some 2, 40, 7⟩)
    120 4200 4260 4320 rfl (by decide) (by decide) (by decide)
  exact ⟨h.1, h.2.2.1, h.2.2.2.1.trans (by decide)⟩

/-- C8 counterexample: upserting user 1 (stored display name `Bob`) with an
empty-string display name overwrites the stored display name with the empty
string — `COALESCE` only protects against NULL, not against an empty
string — contradicting the claim that an existing display name is never
overwritten by an empty-string value. -/
theorem c8_empty_display_overwrites :
    add_user c8ExampleDb 1 (some "bob".toList) (some []) 5 1 =
      some ⟨some "bob".toList, some [], 0, 5⟩
    ∧ add_user c8ExampleDb 1 (some "bob".toList) (some []) 5 1 ≠
      some ⟨some "bob".toList, some "Bob".toList, 0, 5⟩ := by decide

/-- C8 (amended): if the user id is absent, a new row is inserted with the
given fields; otherwise username and last-interaction are updated,
first-seen is preserved, and the display name is updated whenever a value
(including the empty string) is supplied — only an absent (`NULL`) value
leaves the stored display name unchanged.  Other rows are untouched. -/
theorem c8_upsert_amended (db : Nat → Option UserRow) (uid oid now : Nat)
    (username display : Option Str) (row : UserRow) :
    (db uid = none →
      add_user db uid username display now uid = some ⟨username, display, now, now⟩)
    ∧ (db uid = some row → display = none →
      add_user db uid username display now uid =
        some ⟨username, row.display_name, row.first_seen, now⟩)
    ∧ (∀ d : Str, db uid = some row → display = some d →
      add_user db uid username display now uid =
        some ⟨username, some d, row.first_seen, now⟩)
    ∧ (oid ≠ uid → add_user db uid username display now oid = db oid) := by
  refine ⟨?_, ?_, ?_, ?_⟩
  · intro h
    simp [add_user, h]
  · intro h hd
    subst hd
    simp [add_user, h]
  · intro d h hd
    subst hd
    simp [add_user, h]
  · intro h
    simp only [add_user, if_neg h]

/-- Witness for C8 (amended) at the one-row example table. -/
theorem c8_upsert_amended_witness :
    add_user c8ExampleDb 1 (some "bob".toList) none 5 1 =
      some ⟨some "bob".toList, some "Bob".toList, 0, 5⟩
    ∧ add_user c8ExampleDb 2 (some "eve".toList) (some "Eve".toList) 5 2 =
      some ⟨some "eve".toList, some "Eve".toList, 5, 5⟩
    ∧ add_user c8ExampleDb 1 (some "bob".toList) (some "Bobby".toList) 5 1 =
      some ⟨some "bob".toList, some "Bobby".toList, 0, 5⟩
    ∧ add_user c8ExampleDb 1 (some "bob".toList) none 5 2 = none := by
  refine ⟨?_, ?_, ?_, ?_⟩
  · exact (c8_upsert_amended c8ExampleDb 1 0 5 (some "bob".toList) none
      ⟨some "bob".toList, some "Bob".toList, 0, 0⟩).2.1 (by decide) rfl
  · exact (c8_upsert_amended c8ExampleDb 2 0 5 (some "eve".toList) (some "Eve".toList)
      ⟨none, none, 0, 0⟩).1 (by decide)
  · exact (c8_upsert_amended c8ExampleDb 1 0 5 (some "bob".toList) (some "Bobby".toList)
      ⟨some "bob".toList, some "Bob".toList, 0, 0⟩).2.2.1 "Bobby".toList (by decide) rfl
  · exact (c8_upsert_amended c8ExampleDb 1 2 5 (some "bob".toList) none
      ⟨some "bob".toList, some "Bob".toList, 0, 0⟩).2.2.2 (by decide)

/-- C9: the claim says `update_user_preferences` always returns an ok/fail
result and never raises.  On the code this fails: db_utils.py never imports
`json`, so the `json.loads` call (reached for any user whose stored
preferences text is non-empty) and the `json.dumps` call (reached whenever
`other_prefs` is supplied) raise `NameError`, which the function's
`except sqlite3.Error` clause does not catch; the exception propagates to
the caller.  Only calls that touch neither path return normally. -/
theorem c9_update_preferences_raises :
    update_user_preferences (some "\x7b\x7d".toList) none none =
      PyResult.exn "NameError".toList
    ∧ update_user_preferences none none
        (some [("daily_prompt_enabled".toList, "false".toList)]) =
      PyResult.exn "NameError".toList
    ∧ update_user_preferences (some "\x7b\x7d".toList) none
        (some [("daily_prompt_enabled".toList, "false".toList)]) =
      PyResult.exn "NameError".toList
    ∧ update_user_preferences none (some "Ann".toList) none = PyResult.ok true := by
  decide

/-- C10: in chatbot mode the reply shown to the user for a normal (untagged)
model response is its image under `reverse_alphabet`, which maps each Latin
letter to its mirror within the same case, leaves every non-alphabetic
character unchanged, preserves string length, and is an involution. -/
theorem c10_reverse_alphabet (t : Str)
    (h1 : hasSubstr "[API ERROR:".toList t = false)
    (h2 : hasSubstr "[BLOCKED:".toList t = false) :
    handleChatbotReply (some t) = reverse_alphabet t
    ∧ revAlphaChar 'a' = 'z' ∧ revAlphaChar 'z' = 'a' ∧ revAlphaChar 'b' = 'y'
    ∧ revAlphaChar 'A' = 'Z' ∧ revAlphaChar 'Z' = 'A'
    ∧ (∀ c : Char, ¬('a' ≤ c ∧ c ≤ 'z') → ¬('A' ≤ c ∧ c ≤ 'Z') → revAlphaChar c = c)
    ∧ (∀ s : Str, (reverse_alphabet s).length = s.length)
    ∧ (∀ s : Str, reverse_alphabet (reverse_alphabet s) = s) := by
  refine ⟨?_, by decide, by decide, by decide, by decide, by decide,
    revAlphaChar_eq_self, ?_, reverse_alphabet_invol⟩
  · simp only [handleChatbotReply]
    rw [if_neg (by simpa using h1), if_neg (by simpa using h2)]
  · intro s
    unfold reverse_alphabet
    rw [List.length_map]

/-- Witness for C10 at a concrete chatbot response. -/
theorem c10_reverse_alphabet_witness :
    handleChatbotReply (some "Hello, World.".toList) =
      reverse_alphabet "Hello, World.".toList
    ∧ reverse_alphabet (reverse_alphabet "Hello, World.".toList) = "Hello, World.".toList
    ∧ reverse_alphabet "Hello, World.".toList = "Svool, Dliow.".toList := by
  have h := c10_reverse_alphabet "Hello, World.".toList (by decide) (by decide)
  exact ⟨h.1, h.2.2.2.2.2.2.2.2 "Hello, World.".toList, by decide⟩
